import Mathlib

/-!
Shallow embedding of `app.py`, a webhook-driven GroupMe remote-command bot.

Text is modelled as `List Char`.  The fallible external world (the spawned
shell process, the CPU-temperature probe) enters as explicit parameters:
`run_shell` consumes a `ProcResult` describing what `subprocess.run` did, and
the dispatcher takes the shell and the temperature reading as oracles.  The
dispatcher records every text passed to `send_message` and every command
string passed to `run_shell`, which is the program's observable behaviour.
An uncaught Python exception in the webhook handler is modelled by the
`raised` constructor of `WebhookResult`.
-/

namespace GroupMeBot

/-- Text as a list of unicode scalar values. -/
abbrev Str := List Char

/-- The whitespace predicate of Python's `str.strip` (restricted to the ASCII
whitespace characters; the full Unicode set would only enlarge the class of
characters treated symmetrically by both `strip` call sites, which is all the
development depends on). -/
def isspace (c : Char) : Bool :=
  c = ' ' || c = '\t' || c = '\n' || c = '\r' || c = '\x0b' || c = '\x0c'

/-- Python `str.strip()`: remove leading and trailing whitespace. -/
def strip (s : Str) : Str :=
  (s.dropWhile isspace).rdropWhile isspace

/-- `CMD_TIMEOUT = 30` (seconds before a shell command is killed). -/
def CMD_TIMEOUT : Nat := 30

/-- The marker appended by `send_message` when it truncates. -/
def TRUNCATION_MARKER : Str := "\n…(truncated)".toList

/-- `send_message`, reduced to its observable effect on the text: the body
posted to the transport.  (`requests.post` itself is fire-and-forget; its
errors are caught and logged inside `send_message`.) -/
def send_message (text : Str) : Str :=
  if text.length > 950 then text.take 950 ++ TRUNCATION_MARKER else text

/-- What `subprocess.run(command, shell=True, capture_output=True, text=True,
timeout=CMD_TIMEOUT)` did: returned normally, raised `TimeoutExpired` (which
carries whatever partial output had been collected), or raised some other
exception. -/
inductive ProcResult where
  | completed (stdout stderr : Str) (returncode : Int)
  | timedOut (partialStdout partialStderr : Str)
  | raised (excText : Str)
deriving DecidableEq

/-- Python `"\n".join`. -/
def joinNL : List Str → Str
  | [] => []
  | [p] => p
  | p :: ps => p ++ '\n' :: joinNL ps

/-- `run_shell`: format the outcome of the `subprocess.run` call.  The
`timeout` argument is the global `CMD_TIMEOUT` interpolated into the timeout
message. -/
def run_shell (timeout : Nat) (proc : ProcResult) : Str :=
  match proc with
  | .completed stdout stderr returncode =>
    let output := strip stdout
    let errors := strip stderr
    let parts : List Str :=
      (if output = [] then [] else [output]) ++
        (if errors = [] then [] else ["[stderr]\n".toList ++ errors])
    joinNL (if parts = [] then
        ["(command exited with code ".toList ++ (toString returncode).toList
          ++ ", no output)".toList]
      else parts)
  | .timedOut _ _ =>
    "⏱ Command timed out after ".toList ++ (toString timeout).toList ++ "s.".toList
  | .raised excText =>
    "❌ Execution error: ".toList ++ excText

/-- `HELP_TEXT`. -/
def HELP_TEXT : Str :=
  ("🤖 Le Potato Bot — available commands:\n" ++
   "  !help          — show this message\n" ++
   "  !temp          — current CPU temperature\n" ++
   "  !run <cmd>     — execute a shell command and return output\n").toList

/-- The observable behaviour of one `handle_command` call: the texts passed to
`send_message` and the command strings passed to `run_shell`, in order. -/
structure DispatchResult where
  messages : List Str
  executed : List Str
deriving DecidableEq

/-- `command = text[5:].strip()` computed on the already-stripped text. -/
def runArg (text : Str) : Str :=
  strip ((strip text).drop 5)

/-- `handle_command`.  `shell` is the oracle describing what the spawned
process would do on each command string; `temp` is the string returned by
`get_cpu_temp()`. -/
def handle_command (shell : Str → ProcResult) (temp : Str) (text : Str) :
    DispatchResult :=
  if strip text = "!help".toList then
    { messages := [HELP_TEXT], executed := [] }
  else if strip text = "!temp".toList then
    { messages := ["🌡 ".toList ++ temp], executed := [] }
  else if "!run ".toList <+: strip text then
    if runArg text = [] then
      { messages := ["Usage: !run <command>".toList], executed := [] }
    else
      { messages :=
          ["$ ".toList ++ runArg text ++
            '\n' :: run_shell CMD_TIMEOUT (shell (runArg text))],
        executed := [runArg text] }
  else
    { messages := [], executed := [] }

/-- The command variants of the spec's data model, read off from the branch
structure of `handle_command`. -/
inductive Command where
  | Help
  | Temperature
  | Run (argument : Str)
  | Ignore
deriving DecidableEq

/-- The parsing half of `handle_command`: which branch fires, and with which
argument. -/
def parse (raw : Str) : Command :=
  if strip raw = "!help".toList then .Help
  else if strip raw = "!temp".toList then .Temperature
  else if "!run ".toList <+: strip raw then .Run (runArg raw)
  else .Ignore

/-- JSON values, as produced by `request.get_json(silent=True)` when the body
parses (numbers restricted to integers; nothing here depends on floats). -/
inductive Json where
  | null
  | bool (b : Bool)
  | num (n : Int)
  | str (s : Str)
  | arr (elems : List Json)
  | obj (fields : List (Str × Json))

/-- Python truthiness (`if not data`) on a parsed JSON value. -/
def falsy : Json → Bool
  | .null => true
  | .bool b => !b
  | .num n => n = 0
  | .str s => s.isEmpty
  | .arr elems => elems.isEmpty
  | .obj fields => fields.isEmpty

/-- Python `dict.get` on an object parsed by `json.loads`: with duplicate
keys, the last occurrence wins. -/
def dictGet (fields : List (Str × Json)) (key : Str) : Option Json :=
  match fields with
  | [] => none
  | (k, v) :: rest =>
    match dictGet rest key with
    | some r => some r
    | none => if k = key then some v else none

/-- `data.get("sender_type") == "bot"`: true exactly when the field is present
and is the string `"bot"`. -/
def isBotStr : Option Json → Bool
  | some (.str s) => s = "bot".toList
  | _ => false

inductive WebhookResponse where
  | ok
  | ignored (reason : Str)
deriving DecidableEq

/-- The outcome of one webhook request: an HTTP-200 JSON status plus the
dispatch observations, or an uncaught Python exception (which Flask turns
into a 500 response). -/
inductive WebhookResult where
  | response (status : WebhookResponse) (dispatched : DispatchResult)
  | raised (excText : Str)
deriving DecidableEq

/-- The `!`-prefix gate in front of `handle_command` (`if text.startswith("!")`). -/
def bangGate (shell : Str → ProcResult) (temp : Str) (text : Str) :
    DispatchResult :=
  if "!".toList <+: text then handle_command shell temp text
  else { messages := [], executed := [] }

/-- `groupme_webhook`.  `data` is the value of `request.get_json(silent=True)`
(`none` when the body is absent or not valid JSON). -/
def groupme_webhook (shell : Str → ProcResult) (temp : Str)
    (data : Option Json) : WebhookResult :=
  match data with
  | none => .response (.ignored "no JSON".toList) ⟨[], []⟩
  | some body =>
    if falsy body then .response (.ignored "no JSON".toList) ⟨[], []⟩
    else
      match body with
      | .obj fields =>
        if isBotStr (dictGet fields "sender_type".toList) then
          .response (.ignored "bot message".toList) ⟨[], []⟩
        else
          match (dictGet fields "text".toList).getD (.str []) with
          | .str text => .response .ok (bangGate shell temp text)
          | _ => .raised "AttributeError".toList
      | _ => .raised "AttributeError".toList

/-- A shell oracle for closed instances: every command exits 0 silently. -/
def unitShell : Str → ProcResult := fun _ => .completed [] [] 0

/-- A shell oracle under which `echo 42` prints `42`. -/
def echoShell : Str → ProcResult := fun c =>
  if c = "echo 42".toList then .completed "42\n".toList [] 0
  else .completed [] [] 0

/-! ### Helper lemmas about `strip` and the dispatcher -/

/-- `strip` returns `[]` exactly on all-whitespace input. -/
theorem strip_eq_nil_iff {s : Str} :
    strip s = [] ↔ ∀ c ∈ s, isspace c = true := by
  unfold strip
  rw [List.rdropWhile_eq_nil_iff]
  constructor
  · intro h c hc
    rw [← List.takeWhile_append_dropWhile (p := isspace) (l := s)] at hc
    rcases List.mem_append.mp hc with h1 | h2
    · exact List.mem_takeWhile_imp h1
    · exact h c h2
  · intro h c hc
    refine h c ?_
    rw [← List.takeWhile_append_dropWhile (p := isspace) (l := s)]
    exact List.mem_append.mpr (Or.inr hc)

/-- The last character of a non-empty stripped string is not whitespace. -/
theorem strip_ne_nil_last {s : Str} (h : strip s ≠ []) :
    isspace ((strip s).getLast h) = false := by
  have := List.rdropWhile_last_not (p := isspace) (l := s.dropWhile isspace)
  simp only [strip] at h ⊢
  simpa using this h

/-- The `Usage: !run <command>` branch of `handle_command` is unreachable:
once the text has been stripped, a `"!run "` prefix forces a non-whitespace
character after the prefix, so the re-stripped argument cannot be empty. -/
theorem runArg_ne_nil {s : Str} (h : "!run ".toList <+: strip s) :
    runArg s ≠ [] := by
  obtain ⟨rest, hrest⟩ := h
  have hne : strip s ≠ [] := by
    rw [← hrest]; simp
  have hlast : (strip s).getLast? = some ((strip s).getLast hne) :=
    List.getLast?_eq_getLast _ hne
  have hlastns : isspace ((strip s).getLast hne) = false := strip_ne_nil_last hne
  rcases rest.eq_nil_or_concat with rfl | ⟨r, c, hrc⟩
  · have h2 : (strip s).getLast? = some ' ' := by
      rw [← hrest]; decide
    have hsp : ((strip s).getLast hne) = ' ' :=
      Option.some.inj (hlast.symm.trans h2)
    rw [hsp] at hlastns
    exact absurd hlastns (by decide)
  · rw [List.concat_eq_append] at hrc
    subst hrc
    have hdrop : (strip s).drop 5 = r ++ [c] := by
      rw [← hrest]; rfl
    have h2 : (strip s).getLast? = some c := by
      rw [← hrest, ← List.append_assoc, List.getLast?_concat]
    have hc : ((strip s).getLast hne) = c :=
      Option.some.inj (hlast.symm.trans h2)
    intro hnil
    unfold runArg at hnil
    rw [hdrop] at hnil
    have : isspace c = true :=
      strip_eq_nil_iff.mp hnil c (List.mem_append.mpr (Or.inr (by simp)))
    rw [hc, this] at hlastns
    exact absurd hlastns (by decide)

/-- If the stripped text does not start with `!`, no branch of
`handle_command` fires. -/
theorem handle_command_not_bang (shell : Str → ProcResult) (temp : Str)
    {text : Str} (h : ¬ ("!".toList <+: strip text)) :
    handle_command shell temp text = ⟨[], []⟩ := by
  unfold handle_command
  split_ifs with h1 h2 h3 h4
  · exact absurd (by rw [h1]; decide) h
  · exact absurd (by rw [h2]; decide) h
  · exact absurd (List.IsPrefix.trans (by decide) h3) h
  · exact absurd (List.IsPrefix.trans (by decide) h3) h
  · rfl

/-- `send_message` never hands the transport more than 1000 characters. -/
theorem send_message_length_le (text : Str) :
    (send_message text).length ≤ 1000 := by
  unfold send_message
  split_ifs with h
  · rw [List.length_append, List.length_take]
    have : TRUNCATION_MARKER.length = 13 := by decide
    omega
  · omega

/-! ### Claim theorems -/

/-- C1: the parser/dispatcher trims surrounding whitespace first and then maps
the text to exactly one variant, tried in order: exactly `!help` yields `Help`,
exactly `!temp` yields `Temperature`, a `"!run "` prefix (five characters,
case-sensitive) yields `Run` with the remainder trimmed as its argument, and
any other text yields `Ignore` with no output produced.  The three guards are
pairwise exclusive, so no text is interpreted as more than one variant. -/
theorem C1_parse_trims_then_matches_one_variant (shell : Str → ProcResult)
    (temp : Str) (raw : Str) :
    (strip raw = "!help".toList → parse raw = .Help) ∧
    (strip raw = "!temp".toList → parse raw = .Temperature) ∧
    (∀ rest, strip raw = "!run ".toList ++ rest → parse raw = .Run (strip rest)) ∧
    (strip raw ≠ "!help".toList → strip raw ≠ "!temp".toList →
      ¬ ("!run ".toList <+: strip raw) →
      parse raw = .Ignore ∧ handle_command shell temp raw = ⟨[], []⟩) ∧
    ¬ (strip raw = "!help".toList ∧ strip raw = "!temp".toList) ∧
    ¬ (strip raw = "!help".toList ∧ "!run ".toList <+: strip raw) ∧
    ¬ (strip raw = "!temp".toList ∧ "!run ".toList <+: strip raw) := by
  refine ⟨?_, ?_, ?_, ?_, ?_, ?_, ?_⟩
  · intro h; unfold parse; rw [h]; rfl
  · intro h; unfold parse; rw [h]; rfl
  · intro rest h
    have harg : runArg raw = strip rest := by
      unfold runArg; rw [h]; rfl
    unfold parse
    rw [h]
    split_ifs with h1 h2 h3
    · exact absurd h1 (by simp)
    · exact absurd h2 (by simp)
    · rw [harg]
    · exact absurd ⟨rest, rfl⟩ h3
  · intro h1 h2 h3
    constructor
    · unfold parse; rw [if_neg h1, if_neg h2, if_neg h3]
    · unfold handle_command; rw [if_neg h1, if_neg h2, if_neg h3]
  · rintro ⟨ha, hb⟩; rw [ha] at hb; exact absurd hb (by decide)
  · rintro ⟨ha, hb⟩; rw [ha] at hb; exact absurd hb (by decide)
  · rintro ⟨ha, hb⟩; rw [ha] at hb; exact absurd hb (by decide)

/-- Witness for C1 at concrete inputs. -/
theorem C1_witness :
    parse " !help ".toList = Command.Help ∧
    parse "!temp".toList = Command.Temperature ∧
    parse "  !run echo hi".toList = Command.Run ("echo hi".toList) ∧
    (parse "hello".toList = Command.Ignore ∧
      handle_command unitShell [] "hello".toList = ⟨[], []⟩) :=
  ⟨(C1_parse_trims_then_matches_one_variant unitShell [] _).1 (by decide),
   (C1_parse_trims_then_matches_one_variant unitShell [] _).2.1 (by decide),
   (C1_parse_trims_then_matches_one_variant unitShell [] _).2.2.1
     "echo hi".toList (by decide),
   (C1_parse_trims_then_matches_one_variant unitShell [] _).2.2.2.1
     (by decide) (by decide) (by decide)⟩

/-- C2: every message handed to delivery is truncated to its first 950
characters with the exact marker `"\n…(truncated)"` appended whenever it is
longer than 950 characters, the result then ends with that marker, and the
text given to the transport never exceeds 1000 characters — for every text,
hence for every formatted message the dispatcher produces. -/
theorem C2_truncation_bounds_every_message (shell : Str → ProcResult)
    (temp text m : Str) :
    (text.length > 950 →
      send_message text = text.take 950 ++ TRUNCATION_MARKER ∧
      TRUNCATION_MARKER <:+ send_message text) ∧
    (send_message text).length ≤ 1000 ∧
    (m ∈ (handle_command shell temp text).messages →
      (send_message m).length ≤ 1000) := by
  refine ⟨?_, send_message_length_le text, fun _ => send_message_length_le m⟩
  intro h
  unfold send_message
  rw [if_pos h]
  exact ⟨rfl, ⟨_, rfl⟩⟩

set_option maxRecDepth 8192 in
/-- Witness for C2 on a 951-character message and on the help reply. -/
theorem C2_witness :
    (send_message (List.replicate 951 'a') =
        (List.replicate 951 'a').take 950 ++ TRUNCATION_MARKER ∧
      TRUNCATION_MARKER <:+ send_message (List.replicate 951 'a')) ∧
    (send_message (List.replicate 951 'a')).length ≤ 1000 ∧
    (send_message HELP_TEXT).length ≤ 1000 :=
  ⟨(C2_truncation_bounds_every_message unitShell [] _ []).1 (by decide),
   (C2_truncation_bounds_every_message unitShell [] _ []).2.1,
   (C2_truncation_bounds_every_message unitShell [] "!help".toList
       HELP_TEXT).2.2 (by decide)⟩

/-- C3 (counterexample): at a timed-out execution the user-visible output is
not literally `"Command timed out after 30s."` — the code prefixes a timer
marker. -/
theorem C3_counterexample :
    run_shell CMD_TIMEOUT
        (ProcResult.timedOut "partial out".toList "err".toList) ≠
      "Command timed out after 30s.".toList := by decide

/-- C3 (amended): for a process that does not terminate within the timeout,
the user-visible output is the fixed string
`"⏱ Command timed out after <timeout>s."`; it contains (ends with) the
literal report `"Command timed out after <timeout>s."` with the configured
timeout value, and whatever stdout/stderr was collected before the timeout is
discarded: the result is the same for every partial output. -/
theorem C3_timeout_fixed_report (timeout : Nat)
    (partialStdout partialStderr : Str) :
    run_shell timeout (.timedOut partialStdout partialStderr) =
      '⏱' :: ' ' :: ("Command timed out after ".toList ++
        (toString timeout).toList ++ "s.".toList) ∧
    ("Command timed out after ".toList ++ (toString timeout).toList ++
        "s.".toList) <:+
      run_shell timeout (.timedOut partialStdout partialStderr) ∧
    run_shell CMD_TIMEOUT (.timedOut partialStdout partialStderr) =
      "⏱ Command timed out after 30s.".toList := by
  refine ⟨rfl, ⟨['⏱', ' '], rfl⟩, rfl⟩

/-- C4: for a `Run` command that completes without timing out or failing to
start, the reply is the trimmed stdout; a delimited `[stderr]` block is
appended exactly when the trimmed stderr is non-empty; if both trimmed
streams are empty the body is a placeholder naming the exit code and
"no output"; and end to end `!run echo 42` yields the outbound text
`"$ echo 42\n42"`. -/
theorem C4_run_reply_composition (out err : Str) (code : Int) :
    (strip out ≠ [] → strip err = [] →
      run_shell CMD_TIMEOUT (.completed out err code) = strip out) ∧
    (strip out ≠ [] → strip err ≠ [] →
      run_shell CMD_TIMEOUT (.completed out err code) =
        strip out ++ ('\n' :: ("[stderr]\n".toList ++ strip err))) ∧
    (strip out = [] → strip err ≠ [] →
      run_shell CMD_TIMEOUT (.completed out err code) =
        "[stderr]\n".toList ++ strip err) ∧
    (strip out = [] → strip err = [] →
      run_shell CMD_TIMEOUT (.completed out err code) =
        "(command exited with code ".toList ++ (toString code).toList ++
          ", no output)".toList) ∧
    (handle_command echoShell [] "!run echo 42".toList =
        ⟨["$ echo 42\n42".toList], ["echo 42".toList]⟩ ∧
      send_message "$ echo 42\n42".toList = "$ echo 42\n42".toList) := by
  refine ⟨?_, ?_, ?_, ?_, by decide, by decide⟩
  · intro h1 h2; simp [run_shell, joinNL, h1, h2]
  · intro h1 h2; simp [run_shell, joinNL, h1, h2]
  · intro h1 h2; simp [run_shell, joinNL, h1, h2]
  · intro h1 h2; simp [run_shell, joinNL, h1, h2]

/-- Witness for C4 in all four stream configurations. -/
theorem C4_witness :
    run_shell CMD_TIMEOUT (.completed "hi\n".toList "".toList 0) =
      "hi".toList ∧
    run_shell CMD_TIMEOUT (.completed "a\n".toList "b\n".toList 0) =
      "a\n[stderr]\nb".toList ∧
    run_shell CMD_TIMEOUT (.completed "".toList "oops".toList 1) =
      "[stderr]\noops".toList ∧
    run_shell CMD_TIMEOUT (.completed " ".toList "".toList 7) =
      "(command exited with code 7, no output)".toList :=
  ⟨(C4_run_reply_composition "hi\n".toList "".toList 0).1
      (by decide) (by decide),
   (C4_run_reply_composition "a\n".toList "b\n".toList 0).2.1
      (by decide) (by decide),
   (C4_run_reply_composition "".toList "oops".toList 1).2.2.1
      (by decide) (by decide),
   (C4_run_reply_composition " ".toList "".toList 7).2.2.2.1
      (by decide) (by decide)⟩

/-- C5 (code evaluated at the failing input): the inbound text `"!run   "`
begins with `"!run "` and its remainder trims to the empty string, yet the
dispatcher sends nothing at all — not the usage string the claim requires.
Stripping before matching makes the `Usage: !run <command>` branch
unreachable. -/
theorem C5_empty_run_sends_nothing :
    "!run ".toList <+: "!run   ".toList ∧
    strip ("!run   ".toList.drop 5) = [] ∧
    handle_command unitShell [] "!run   ".toList = ⟨[], []⟩ :=
  ⟨by decide, by decide, by decide⟩

/-- C6: a webhook payload whose `sender_type` field equals `"bot"` is
acknowledged with an ignored status, and neither the parser nor any outbound
message nor any shell execution happens, regardless of its text content. -/
theorem C6_bot_sender_never_dispatched (shell : Str → ProcResult) (temp : Str)
    (fields : List (Str × Json))
    (h : isBotStr (dictGet fields "sender_type".toList) = true) :
    groupme_webhook shell temp (some (.obj fields)) =
      .response (.ignored "bot message".toList) ⟨[], []⟩ := by
  cases fields with
  | nil => simp [dictGet, isBotStr] at h
  | cons f fs =>
    simp only [String.toList] at h
    simp [groupme_webhook, falsy, h]

/-- Witness for C6: a bot-sent `!run` message is ignored. -/
theorem C6_witness :
    isBotStr (dictGet
        [("sender_type".toList, Json.str "bot".toList),
         ("text".toList, Json.str "!run reboot".toList)]
        "sender_type".toList) = true ∧
    groupme_webhook unitShell []
        (some (.obj [("sender_type".toList, Json.str "bot".toList),
          ("text".toList, Json.str "!run reboot".toList)])) =
      .response (.ignored "bot message".toList) ⟨[], []⟩ :=
  ⟨by decide, C6_bot_sender_never_dispatched unitShell [] _ (by decide)⟩

/-- C7 (counterexample): a POST whose body is the valid JSON `5` — truthy and
not an object — makes `data.get` raise `AttributeError`, so the handler does
not return an HTTP-200 status object for every payload. -/
theorem C7_counterexample :
    groupme_webhook unitShell [] (some (.num 5)) =
      .raised "AttributeError".toList := by decide

/-- C7 (amended): for every inbound POST payload whose body is absent, is
invalid JSON, parses to a falsy value, or parses to a JSON object that either
carries `sender_type = "bot"` or whose `text` field is absent or a string,
the webhook handler returns HTTP 200 with an `ok` or `ignored` status object;
shell outcomes and delivery errors never escape.  (Truthy non-object bodies,
or objects with a non-string `text` field from a non-bot sender, instead
raise an uncaught `AttributeError`.) -/
theorem C7_handler_returns_200 (shell : Str → ProcResult) (temp : Str)
    (data : Option Json)
    (h : data = none ∨ ∃ body, data = some body ∧ (falsy body = true ∨
      ∃ fields, body = Json.obj fields ∧
        (isBotStr (dictGet fields "sender_type".toList) = true ∨
          ∃ text : Str,
            (dictGet fields "text".toList).getD (.str []) = .str text))) :
    ∃ status dispatched,
      groupme_webhook shell temp data = .response status dispatched := by
  rcases h with rfl | ⟨body, rfl, hb⟩
  · exact ⟨_, _, rfl⟩
  rcases hb with hf | ⟨fields, rfl, hfield⟩
  · have he : groupme_webhook shell temp (some body) =
        .response (.ignored "no JSON".toList) ⟨[], []⟩ := by
      simp [groupme_webhook, hf]
    exact ⟨_, _, he⟩
  by_cases hf : falsy (.obj fields) = true
  · have he : groupme_webhook shell temp (some (.obj fields)) =
        .response (.ignored "no JSON".toList) ⟨[], []⟩ := by
      simp [groupme_webhook, hf]
    exact ⟨_, _, he⟩
  by_cases hbot : isBotStr (dictGet fields "sender_type".toList) = true
  · have he : groupme_webhook shell temp (some (.obj fields)) =
        .response (.ignored "bot message".toList) ⟨[], []⟩ := by
      simp only [String.toList] at hbot
      simp [groupme_webhook, hf, hbot]
    exact ⟨_, _, he⟩
  rcases hfield with hbot' | ⟨text, htext⟩
  · exact absurd hbot' hbot
  · have he : groupme_webhook shell temp (some (.obj fields)) =
        .response .ok (bangGate shell temp text) := by
      simp only [String.toList] at hbot htext
      simp [groupme_webhook, hf, hbot, htext]
    exact ⟨_, _, he⟩

/-- Witness for C7 on an ordinary user message. -/
theorem C7_witness :
    ∃ status dispatched,
      groupme_webhook unitShell []
          (some (.obj [("sender_type".toList, Json.str "user".toList),
            ("text".toList, Json.str "!help".toList)])) =
        .response status dispatched :=
  C7_handler_returns_200 unitShell [] _
    (Or.inr ⟨_, rfl, Or.inr ⟨_, rfl, Or.inr ⟨"!help".toList, rfl⟩⟩⟩)

set_option maxRecDepth 8192 in
/-- C8 (counterexample): the two filter placements are not observationally
equivalent: on `" !help"` (leading whitespace) the gate placement — the code —
produces no outbound message, while invoking the parser on every text
produces the help message. -/
theorem C8_counterexample :
    (bangGate unitShell [] " !help".toList).messages = [] ∧
    (handle_command unitShell [] " !help".toList).messages = [HELP_TEXT] :=
  ⟨by decide, by decide⟩

/-- C8 (amended): the gate placement (invoke the parser only when the raw
text starts with `!`) agrees with the parser placement (invoke the parser on
every text) on every text that starts with `!` or whose trimmed form does not
start with `!` — the placements differ exactly on texts with leading
whitespace before a bang command.  Under the gate placement, text not
prefixed with `!` never triggers a command. -/
theorem C8_gate_vs_parser_placement (shell : Str → ProcResult) (temp : Str)
    (text : Str) :
    ("!".toList <+: text ∨ ¬ ("!".toList <+: strip text) →
      bangGate shell temp text = handle_command shell temp text) ∧
    (¬ ("!".toList <+: text) → bangGate shell temp text = ⟨[], []⟩) := by
  constructor
  · rintro (hp | hnp)
    · unfold bangGate; rw [if_pos hp]
    · by_cases hp : "!".toList <+: text
      · unfold bangGate; rw [if_pos hp]
      · unfold bangGate
        rw [if_neg hp, handle_command_not_bang shell temp hnp]
  · intro hp; unfold bangGate; rw [if_neg hp]

/-- Witness for C8 on a bang command and on plain text. -/
theorem C8_witness :
    bangGate unitShell [] "!temp".toList =
      handle_command unitShell [] "!temp".toList ∧
    bangGate unitShell [] "hello".toList =
      handle_command unitShell [] "hello".toList ∧
    bangGate unitShell [] "hello".toList = ⟨[], []⟩ :=
  ⟨(C8_gate_vs_parser_placement unitShell [] _).1 (Or.inl (by decide)),
   (C8_gate_vs_parser_placement unitShell [] _).1 (Or.inr (by decide)),
   (C8_gate_vs_parser_placement unitShell [] _).2 (by decide)⟩

/-- C9: trimmed text that begins with `!run` but not with `"!run "` (such as
`!run` itself or `!runx`) produces no outbound message at all, and the usage
error is produced only when the text starts with the five characters
`"!run "` and the remainder trims to empty (stated contrapositively: for any
text outside that shape the usage string is not among the messages). -/
theorem C9_bare_run_silently_ignored (shell : Str → ProcResult) (temp : Str)
    (text : Str) :
    ("!run".toList <+: strip text → ¬ ("!run ".toList <+: strip text) →
      handle_command shell temp text = ⟨[], []⟩) ∧
    (¬ ("!run ".toList <+: text ∧ strip (text.drop 5) = []) →
      "Usage: !run <command>".toList ∉
        (handle_command shell temp text).messages) := by
  constructor
  · intro h4 h5
    unfold handle_command
    split_ifs with h1 h2
    · rw [h1] at h4; exact absurd h4 (by decide)
    · rw [h2] at h4; exact absurd h4 (by decide)
    · rfl
  · intro _ hm
    unfold handle_command at hm
    split_ifs at hm with h1 h2 h3 h3'
    · rw [List.mem_singleton] at hm
      exact absurd (congrArg (List.take 1) hm)
        (by show ¬(['U'] = ['🤖']); decide)
    · rw [List.mem_singleton] at hm
      exact absurd (congrArg (List.take 1) hm)
        (by show ¬(['U'] = ['🌡']); decide)
    · exact absurd h3' (runArg_ne_nil h3)
    · rw [List.mem_singleton] at hm
      exact absurd (congrArg (List.take 1) hm)
        (by show ¬(['U'] = ['$']); decide)
    · exact absurd hm (List.not_mem_nil _)

/-- Witness for C9 on `!run` (no trailing space) and on an executing command. -/
theorem C9_witness :
    handle_command unitShell [] "!run".toList = ⟨[], []⟩ ∧
    "Usage: !run <command>".toList ∉
      (handle_command unitShell [] "!run ls".toList).messages :=
  ⟨(C9_bare_run_silently_ignored unitShell [] _).1 (by decide) (by decide),
   (C9_bare_run_silently_ignored unitShell [] _).2 (by decide)⟩

/-- C10: a POST whose body parses to a falsy JSON value (such as `{}`) is
handled identically to an absent or invalid body: HTTP 200 with
`{"status": "ignored", "reason": "no JSON"}`, and neither the sender filter
nor the dispatcher runs (no message, no execution). -/
theorem C10_falsy_body_like_no_json (shell : Str → ProcResult) (temp : Str)
    (body : Json) (h : falsy body = true) :
    groupme_webhook shell temp (some body) =
      .response (.ignored "no JSON".toList) ⟨[], []⟩ ∧
    groupme_webhook shell temp (some body) =
      groupme_webhook shell temp none := by
  have h1 : groupme_webhook shell temp (some body) =
      .response (.ignored "no JSON".toList) ⟨[], []⟩ := by
    simp [groupme_webhook, h]
  exact ⟨h1, h1.trans rfl⟩

/-- Witness for C10 on the empty JSON object. -/
theorem C10_witness :
    groupme_webhook unitShell [] (some (.obj [])) =
      .response (.ignored "no JSON".toList) ⟨[], []⟩ ∧
    groupme_webhook unitShell [] (some (.obj [])) =
      groupme_webhook unitShell [] none :=
  C10_falsy_body_like_no_json unitShell [] _ (by decide)

end GroupMeBot
